import Mathlib

/-!
# Verification of the M365 roadmap data pipeline

Shallow embedding of the data-acquisition pipeline of
`scripts/update-data.js` and of the independent health checker
(`scripts/health-check.js`), together with theorems settling the
specification claims about retry policy, statistics aggregation, change
detection, health reporting, backup pruning and the pipeline controller.

Machine integers of the source (millisecond counts, item counts) are
modelled as `Nat`/`Int`; the floating-point jitter factor `0.3` and the
result of `Math.random()` are modelled in exact rational arithmetic.
-/

namespace M365

/-! ## Fetcher with retry (`update-data.js`: `fetchOne`, `fetchData`, `delayMs`)

`fetchOne` can reject with an HTTP error (non-200 status), a timeout,
a JSON parse error, or a shape-validation error thrown by
`validateApiResponse`.  The retry loop in `fetchData` observes only the
rejected `Error` value; the embedding keeps the four classes apart so
that theorems can speak about how each class is treated. -/

inductive FetchError
  | http (statusCode : Nat)
  | timeout
  | parse
  | shape (message : String)
deriving DecidableEq, Repr

/-- One iteration state of the `for (let attempt = 0; attempt <= this.retryCount; ...)`
loop of `fetchData`: `attempts n` is the outcome of the `(n+1)`-st call of
`fetchOne`.  Returns the loop's result together with the number of attempts
performed. -/
def fetchDataFrom {α : Type} (attempts : Nat → Except FetchError α) :
    Nat → Nat → Except FetchError α × Nat
  | 0, attempt =>
    match attempts attempt with
    | Except.ok v => (Except.ok v, attempt + 1)
    | Except.error e => (Except.error e, attempt + 1)
  | r + 1, attempt =>
    match attempts attempt with
    | Except.ok v => (Except.ok v, attempt + 1)
    | Except.error _ => fetchDataFrom attempts r (attempt + 1)

/-- `fetchData` of `update-data.js`: run `fetchOne` up to `retryCount + 1`
times, returning the first success or the last error, together with the
total number of attempts performed. -/
def fetchData {α : Type} (retryCount : Nat) (attempts : Nat → Except FetchError α) :
    Except FetchError α × Nat :=
  fetchDataFrom attempts retryCount 0

/-- The capped exponential `Math.min(baseMs * Math.pow(2, attempt), maxMs)`
of `delayMs`, at the default `baseMs = 1000`, `maxMs = 30000`. -/
def backoffExp (attempt : Nat) : Int :=
  min (1000 * 2 ^ attempt) 30000

/-- `delayMs(attempt)` of `update-data.js`:
`exp + Math.floor(Math.random() * 0.3 * exp)` with
`exp = min(1000 * 2^attempt, 30000)`.  The value of `Math.random()` is the
parameter `rnd` (a rational in `[0, 1)`), and `0.3` is modelled exactly as
`3 / 10`. -/
def delayMs (attempt : Nat) (rnd : ℚ) : Int :=
  backoffExp attempt + Int.floor (rnd * (3 / 10) * ((backoffExp attempt : Int) : ℚ))

/-- `FETCH_RETRY_COUNT` handling in the constructor:
`Math.max(0, Math.min(10, parseInt(env, 10) || 3))`.  `none` models an unset
variable or a `parseInt` result of `NaN`; note that `0 || 3` is `3` in
JavaScript, hence the inner `if`. -/
def clampRetryCount (envValue : Option Int) : Int :=
  max 0 (min 10 (match envValue with
    | some n => if n = 0 then 3 else n
    | none => 3))

theorem fetchDataFrom_allFail (α : Type) (errs : Nat → FetchError) :
    ∀ (r a : Nat),
      fetchDataFrom (fun i => (Except.error (errs i) : Except FetchError α)) r a =
        (Except.error (errs (a + r)), a + r + 1) := by
  intro r
  induction r with
  | zero => intro a; simp [fetchDataFrom]
  | succ n ih =>
    intro a
    have h := ih (a + 1)
    simp only [fetchDataFrom]
    rw [h]
    have hn : a + 1 + n = a + (n + 1) := by omega
    rw [hn]

theorem fetchData_allFail {α : Type} (errs : Nat → FetchError) (r : Nat) :
    fetchData r (fun i => (Except.error (errs i) : Except FetchError α)) =
      (Except.error (errs r), r + 1) := by
  have h := fetchDataFrom_allFail α errs r 0
  simpa [fetchData] using h

theorem backoffExp_pos (i : Nat) : 0 < backoffExp i := by
  unfold backoffExp
  have h1 : (0 : Int) < 1000 * 2 ^ i := by positivity
  omega

theorem delayMs_bounds (i : Nat) (rnd : ℚ) (h0 : 0 ≤ rnd) (h1 : rnd < 1) :
    backoffExp i ≤ delayMs i rnd ∧ 10 * delayMs i rnd ≤ 13 * backoffExp i := by
  have hpos : (0 : Int) < backoffExp i := backoffExp_pos i
  have hposQ : (0 : ℚ) < ((backoffExp i : Int) : ℚ) := by exact_mod_cast hpos
  set x : ℚ := rnd * (3 / 10) * ((backoffExp i : Int) : ℚ) with hx
  have hxnonneg : 0 ≤ x := by
    apply mul_nonneg (mul_nonneg h0 (by norm_num))
    exact le_of_lt hposQ
  have hfl0 : 0 ≤ Int.floor x := Int.floor_nonneg.mpr hxnonneg
  have hfloorle : (Int.floor x : ℚ) ≤ x := Int.floor_le x
  have h3c : (0 : ℚ) < 3 * ((backoffExp i : Int) : ℚ) := by linarith
  have h10x : 10 * x = rnd * (3 * ((backoffExp i : Int) : ℚ)) := by rw [hx]; ring
  have hrx : rnd * (3 * ((backoffExp i : Int) : ℚ)) < 1 * (3 * ((backoffExp i : Int) : ℚ)) :=
    mul_lt_mul_of_pos_right h1 h3c
  have h10 : ((10 * Int.floor x : Int) : ℚ) < ((3 * backoffExp i : Int) : ℚ) := by
    push_cast
    linarith
  have h10' : 10 * Int.floor x < 3 * backoffExp i := by exact_mod_cast h10
  unfold delayMs
  rw [← hx]
  omega

/-- C1, counterexample.  The claim states that a structural-validation
(`ShapeError`) failure is surfaced immediately with no further attempts:
with `retryCount = 1` and every attempt rejecting with a shape error, the
claim entails a single attempt.  The code's retry loop in `fetchData`
catches every error class alike, so it performs `2` attempts here. -/
theorem retry_shape_counterexample :
    fetchData 1 (fun _ => (Except.error (FetchError.shape
        "API item at index 0 missing required fields (id, title, description, status)") :
        Except FetchError Unit)) =
      (Except.error (FetchError.shape
        "API item at index 0 missing required fields (id, title, description, status)"), 2) := by
  rfl

/-- C1 (amended): the retry loop of `fetchData` does not discriminate by
error class.  Every failed attempt — HTTP error, timeout, parse error, or
structural-validation (shape) error — is retried alike: a fetch whose
every attempt fails with any mix of error classes performs exactly
`retryCount + 1` attempts and surfaces the last attempt's error as the
terminal failure. -/
theorem retry_uniform_all_classes {α : Type} (retryCount : Nat) (errs : Nat → FetchError) :
    fetchData retryCount (fun i => (Except.error (errs i) : Except FetchError α)) =
      (Except.error (errs retryCount), retryCount + 1) :=
  fetchData_allFail errs retryCount

/-- C2: for every retry count `r ≤ 10`, a fetch whose every attempt fails
performs exactly `r + 1` attempts and surfaces the final attempt's error;
each inter-attempt backoff delay for attempt `i` lies between
`min(1000·2^i, 30000)` and `1.3` times that value; and the configured
retry count always lies in `[0, 10]` (default 3). -/
theorem fetch_retry_bound {α : Type} (r : Nat) (_hr : r ≤ 10) (errs : Nat → FetchError)
    (rnd : Nat → ℚ) (hrnd : ∀ i, 0 ≤ rnd i ∧ rnd i < 1) :
    fetchData r (fun i => (Except.error (errs i) : Except FetchError α)) =
      (Except.error (errs r), r + 1) ∧
    (∀ i, i < r →
      backoffExp i ≤ delayMs i (rnd i) ∧ 10 * delayMs i (rnd i) ≤ 13 * backoffExp i) ∧
    (∀ v, 0 ≤ clampRetryCount v ∧ clampRetryCount v ≤ 10) ∧
    clampRetryCount none = 3 := by
  refine ⟨fetchData_allFail errs r, ?_, ?_, rfl⟩
  · intro i _
    exact delayMs_bounds i (rnd i) (hrnd i).1 (hrnd i).2
  · intro v
    unfold clampRetryCount
    rcases v with _ | n
    · omega
    · dsimp only
      split <;> omega

/-- C2, witness: the retry-bound theorem at `r = 3` (the default), all
attempts timing out, and `Math.random()` returning `1/2` each time. -/
theorem fetch_retry_bound_witness :
    fetchData 3 (fun _ => (Except.error FetchError.timeout : Except FetchError Unit)) =
      (Except.error FetchError.timeout, 4) ∧
    (∀ i, i < 3 →
      backoffExp i ≤ delayMs i ((1 : ℚ) / 2) ∧
        10 * delayMs i ((1 : ℚ) / 2) ≤ 13 * backoffExp i) ∧
    (∀ v, 0 ≤ clampRetryCount v ∧ clampRetryCount v ≤ 10) ∧
    clampRetryCount none = 3 :=
  fetch_retry_bound 3 (by norm_num) (fun _ => FetchError.timeout)
    (fun _ => (1 : ℚ) / 2) (fun _ => by norm_num)

/-! ## Roadmap records (`update-data.js` data model)

A fetched record is a JSON object; validation only requires the presence
of `id`, `title`, `description`, `status`.  The fields the pipeline reads
are modelled directly; optional / possibly-`null` fields are `Option`s. -/

structure Tag where
  tagName : String
deriving DecidableEq, Repr

structure TagsContainer where
  products : Option (List Tag)
  platforms : Option (List Tag)
  releasePhase : Option (List Tag)
deriving DecidableEq, Repr

structure RoadmapItem where
  id : Int
  title : Option String
  description : Option String
  status : Option String
  publicDisclosureAvailabilityDate : Option String
  tagsContainer : Option TagsContainer
deriving DecidableEq, Repr

/-! ## Statistics aggregator (`update-data.js`: `calculateStatistics`)

The four grouping objects are modelled as count functions `String → Nat`
(a JavaScript object used as a dictionary with `(m[k] || 0) + 1` updates;
the function value is `0` exactly where the object has no key).

The host expression `new Date(s)` followed by `getFullYear()` /
`getMonth()` is modelled by a parameter `dateYM : String → Option (Int × Nat)`
returning the full year and zero-based month of a valid date and `none`
for an Invalid Date; on an Invalid Date both getters return `NaN`, so the
template literal `` `${year} Q${quarter}` `` produces the string
`"NaN QNaN"`, which the embedding reproduces. -/

structure Statistics where
  byStatus : String → Nat
  byProduct : String → Nat
  byPlatform : String → Nat
  byQuarter : String → Nat
  totalItems : Nat

/-- `stats[k] = (stats[k] || 0) + 1` on a dictionary object. -/
def bump (m : String → Nat) (k : String) : String → Nat :=
  fun x => if x = k then m k + 1 else m x

def bumpList (m : String → Nat) (ks : List String) : String → Nat :=
  ks.foldl bump m

/-- `` `${year} Q${Math.ceil((month + 1) / 3)}` `` for a month in `0..11`;
`"NaN QNaN"` for an Invalid Date (NaN getters). -/
def quarterKey (dateYM : String → Option (Int × Nat)) (s : String) : String :=
  match dateYM s with
  | some (y, m) => toString y ++ " Q" ++ toString ((m + 3) / 3)
  | none => "NaN QNaN"

/-- One iteration of the `data.forEach(item => ...)` body of
`calculateStatistics`, in source order: status bucket (falsy status
defaults to `"Unknown"`), product tags, platform tags, quarter bucket
(guarded by the truthiness of `publicDisclosureAvailabilityDate`). -/
def statStep (dateYM : String → Option (Int × Nat)) (stats : Statistics)
    (item : RoadmapItem) : Statistics :=
  let statusLabel := match item.status with
    | some s => if s = "" then "Unknown" else s
    | none => "Unknown"
  let s1 := { stats with byStatus := bump stats.byStatus statusLabel }
  let s2 := match item.tagsContainer with
    | some tc =>
      match tc.products with
      | some ps => { s1 with byProduct := bumpList s1.byProduct (ps.map Tag.tagName) }
      | none => s1
    | none => s1
  let s3 := match item.tagsContainer with
    | some tc =>
      match tc.platforms with
      | some pl => { s2 with byPlatform := bumpList s2.byPlatform (pl.map Tag.tagName) }
      | none => s2
    | none => s2
  match item.publicDisclosureAvailabilityDate with
  | some d =>
    if d = "" then s3
    else { s3 with byQuarter := bump s3.byQuarter (quarterKey dateYM d) }
  | none => s3

/-- `calculateStatistics` of `update-data.js`. -/
def calculateStatistics (dateYM : String → Option (Int × Nat))
    (data : List RoadmapItem) : Statistics :=
  data.foldl (statStep dateYM)
    { byStatus := fun _ => 0, byProduct := fun _ => 0, byPlatform := fun _ => 0,
      byQuarter := fun _ => 0, totalItems := data.length }

/-- The quarter-bucket key a record contributes, if any: `none` when the
disclosure date is absent or the empty string (falsy guard), otherwise the
key computed by `quarterKey`. -/
def quarterContribution (dateYM : String → Option (Int × Nat))
    (item : RoadmapItem) : Option String :=
  match item.publicDisclosureAvailabilityDate with
  | some d => if d = "" then none else some (quarterKey dateYM d)
  | none => none

/-- Modelled from the host environment: ECMA-262 `new Date(string)`
parsing restricted to the date-only ISO form `YYYY-MM-DD` (the only
valid-date format used by the theorems below); every other string is an
Invalid Date (`none`), matching the host behaviour on strings such as
`"not-a-date"`.  Returns the full year and the zero-based month. -/
def isoDateYM (s : String) : Option (Int × Nat) :=
  match s.data with
  | [y1, y2, y3, y4, c1, m1, m2, c2, d1, d2] =>
    if ([y1, y2, y3, y4, m1, m2, d1, d2].all Char.isDigit) ∧ c1 = '-' ∧ c2 = '-' then
      let digit := fun (c : Char) => c.toNat - 48
      let yn := ((digit y1 * 10 + digit y2) * 10 + digit y3) * 10 + digit y4
      let mn := digit m1 * 10 + digit m2
      let dn := digit d1 * 10 + digit d2
      if 1 ≤ mn ∧ mn ≤ 12 ∧ 1 ≤ dn ∧ dn ≤ 31 then some ((yn : Int), mn - 1) else none
    else none
  | _ => none

theorem isoDateYM_month_lt (s : String) (y : Int) (m : Nat)
    (h : isoDateYM s = some (y, m)) : m < 12 := by
  unfold isoDateYM at h
  split at h
  · split at h
    · dsimp only at h
      split at h
      · rename_i hrange
        simp only [Option.some.injEq, Prod.mk.injEq] at h
        omega
      · simp at h
    · simp at h
  · simp at h

theorem statStep_byQuarter (dateYM : String → Option (Int × Nat))
    (st : Statistics) (it : RoadmapItem) :
    (statStep dateYM st it).byQuarter =
      match quarterContribution dateYM it with
      | some k => bump st.byQuarter k
      | none => st.byQuarter := by
  rcases it with ⟨i, t, de, st', pd, tags⟩
  unfold statStep quarterContribution
  rcases tags with _ | tc
  · rcases pd with _ | s
    · rfl
    · dsimp only
      by_cases hs : s = "" <;> simp [hs]
  · rcases tc with ⟨ps, pl, rp⟩
    rcases ps with _ | psl <;> rcases pl with _ | pll <;>
      (rcases pd with _ | s
       · rfl
       · dsimp only
         by_cases hs : s = "" <;> simp [hs])

theorem foldl_statStep_byQuarter (dateYM : String → Option (Int × Nat))
    (data : List RoadmapItem) :
    ∀ (init : Statistics) (k : String),
      (data.foldl (statStep dateYM) init).byQuarter k =
        init.byQuarter k + (data.filterMap (quarterContribution dateYM)).count k := by
  induction data with
  | nil => intro init k; simp
  | cons it rest ih =>
    intro init k
    rw [List.foldl_cons, ih, List.filterMap_cons]
    cases hq : quarterContribution dateYM it with
    | none =>
      rw [statStep_byQuarter]
      rw [hq]
    | some k' =>
      rw [statStep_byQuarter, hq]
      by_cases hk : k = k'
      · subst hk
        simp only [bump, if_pos rfl, List.count_cons, beq_self_eq_true, if_pos]
        omega
      · have hk' : (k' == k) = false := by
          simp only [beq_eq_false_iff_ne]
          exact Ne.symm hk
        simp [bump, List.count_cons, hk', if_neg hk]

/-- C3, counterexample.  The claim states that a record whose
`publicDisclosureAvailabilityDate` is unparseable contributes to no
`byQuarter` bucket and that every `byQuarter` key has the form
`"<year> Q<1-4>"`.  On the input below — a single record whose date is
the unparseable string `"not-a-date"` — the code computes
`new Date("not-a-date")` (an Invalid Date), `NaN` year and quarter, and
counts the record under the key `"NaN QNaN"`. -/
theorem byQuarter_nan_counterexample :
    isoDateYM "not-a-date" = none ∧
    (calculateStatistics isoDateYM
      [{ id := 1, title := some "Feature", description := some "d",
         status := some "In development",
         publicDisclosureAvailabilityDate := some "not-a-date",
         tagsContainer := none }]).byQuarter "NaN QNaN" = 1 := by
  constructor
  · rfl
  · rfl

/-- C3 (amended): `byQuarter` counts exactly the records whose disclosure
date is present and non-empty (truthy): each such record contributes one
count under its `quarterKey`, and records with an absent or empty date
contribute to no bucket.  A parseable date yields a key
`"<year> Q<q>"` with `q ∈ 1..4`; an unparseable (but truthy) date yields
the invalid-date key `"NaN QNaN"` — it is *not* excluded. -/
theorem byQuarter_buckets (dateYM : String → Option (Int × Nat))
    (hmonth : ∀ s y m, dateYM s = some (y, m) → m < 12)
    (data : List RoadmapItem) :
    (∀ k, (calculateStatistics dateYM data).byQuarter k =
        (data.filterMap (quarterContribution dateYM)).count k) ∧
    (∀ it ∈ data, quarterContribution dateYM it = none ↔
        (it.publicDisclosureAvailabilityDate = none ∨
         it.publicDisclosureAvailabilityDate = some "")) ∧
    (∀ s, dateYM s = none → quarterKey dateYM s = "NaN QNaN") ∧
    (∀ s y m, dateYM s = some (y, m) →
        ∃ q, 1 ≤ q ∧ q ≤ 4 ∧ quarterKey dateYM s = toString y ++ " Q" ++ toString q) := by
  refine ⟨?_, ?_, ?_, ?_⟩
  · intro k
    unfold calculateStatistics
    rw [foldl_statStep_byQuarter]
    simp
  · intro it _
    unfold quarterContribution
    rcases it with ⟨i, t, de, st', pd, tags⟩
    rcases pd with _ | s
    · simp
    · dsimp only
      by_cases hs : s = "" <;> simp [hs]
  · intro s hs
    unfold quarterKey
    rw [hs]
  · intro s y m hs
    have hm : m < 12 := hmonth s y m hs
    refine ⟨(m + 3) / 3, by omega, by omega, ?_⟩
    unfold quarterKey
    rw [hs]

/-- C3 (amended), witness: a single record with the parseable ISO date
`"2026-05-20"` (second quarter of 2026) is counted once under
`"2026 Q2"`. -/
theorem byQuarter_buckets_witness :
    (calculateStatistics isoDateYM
      [{ id := 2, title := some "Feature B", description := some "d",
         status := some "Rolling out",
         publicDisclosureAvailabilityDate := some "2026-05-20",
         tagsContainer := none }]).byQuarter "2026 Q2" =
      ([{ id := 2, title := some "Feature B", description := some "d",
          status := some "Rolling out",
          publicDisclosureAvailabilityDate := some "2026-05-20",
          tagsContainer := none }].filterMap
            (quarterContribution isoDateYM)).count "2026 Q2" :=
  (byQuarter_buckets isoDateYM isoDateYM_month_lt
    [{ id := 2, title := some "Feature B", description := some "d",
       status := some "Rolling out",
       publicDisclosureAvailabilityDate := some "2026-05-20",
       tagsContainer := none }]).1 "2026 Q2"

/-! ## Change detector (`update-data.js`: `detectChanges`)

`detectChanges` reads the previous snapshot file.  The possible outcomes
of that read are modelled by `PrevSnapshot`; `loadPrevItems` mirrors the
`try { ... } catch` block computing `prevItems`: a missing file, a read
error, or a JSON parse error all leave `prevItems = []`; a parsed array
is used directly; a parsed object contributes its `items` member when
that member is an array, else `[]`. -/

inductive PrevSnapshot
  | missing
  | unreadable
  | parsedArr (items : List RoadmapItem)
  | parsedObjItems (items : Option (List RoadmapItem))
  | parsedOther
deriving DecidableEq, Repr

def loadPrevItems : PrevSnapshot → List RoadmapItem
  | PrevSnapshot.missing => []
  | PrevSnapshot.unreadable => []
  | PrevSnapshot.parsedArr l => l
  | PrevSnapshot.parsedObjItems (some l) => l
  | PrevSnapshot.parsedObjItems none => []
  | PrevSnapshot.parsedOther => []

inductive ChangeType
  | new
  | changed
  | unchanged
deriving DecidableEq, Repr

/-- A record after `detectChanges` annotated it with `_changeType` and
`_changedFields`. -/
structure AnnotatedItem where
  item : RoadmapItem
  _changeType : ChangeType
  _changedFields : List String
deriving DecidableEq, Repr

/-- `item[field] != null ? String(item[field]) : ''` for the four
compared text fields (field values are strings when present). -/
def strOrEmpty : Option String → String
  | some s => s
  | none => ""

/-- `JSON.stringify` of a `{tagName: text}` array. -/
def stringifyTagList (l : List Tag) : String :=
  "[" ++ String.intercalate ","
    (l.map (fun t => "\x7b\"tagName\":\"" ++ t.tagName ++ "\"\x7d")) ++ "]"

/-- `JSON.stringify(x.tagsContainer || \x7b\x7d)`: an absent container
serializes as `"\x7b\x7d"`; `undefined` members are omitted; member order
is the source object's insertion order (`products`, `platforms`,
`releasePhase`). -/
def stringifyTags : Option TagsContainer → String
  | some tc =>
    "\x7b" ++ String.intercalate ","
      ((match tc.products with
        | some l => ["\"products\":" ++ stringifyTagList l]
        | none => []) ++
       (match tc.platforms with
        | some l => ["\"platforms\":" ++ stringifyTagList l]
        | none => []) ++
       (match tc.releasePhase with
        | some l => ["\"releasePhase\":" ++ stringifyTagList l]
        | none => [])) ++ "\x7d"
  | none => "\x7b\x7d"

/-- The `_changedFields` list built by the comparison loop of
`detectChanges`, with the loop over the four-element `comparedFields`
array unrolled in its order (`title`, `description`, `status`,
`publicDisclosureAvailabilityDate`), followed by the `tagsContainer`
serialization comparison. -/
def changedFieldsBetween (prev it : RoadmapItem) : List String :=
  (if strOrEmpty it.title ≠ strOrEmpty prev.title then ["title"] else []) ++
  (if strOrEmpty it.description ≠ strOrEmpty prev.description then ["description"] else []) ++
  (if strOrEmpty it.status ≠ strOrEmpty prev.status then ["status"] else []) ++
  (if strOrEmpty it.publicDisclosureAvailabilityDate ≠
      strOrEmpty prev.publicDisclosureAvailabilityDate
    then ["publicDisclosureAvailabilityDate"] else []) ++
  (if stringifyTags it.tagsContainer ≠ stringifyTags prev.tagsContainer
    then ["tagsContainer"] else [])

/-- `new Map(prevItems.map(i => [i.id, i])).get(id)`: on duplicate ids the
later entry overwrites the earlier one, so the lookup finds the last
matching record. -/
def prevLookup (prevItems : List RoadmapItem) (id : Int) : Option RoadmapItem :=
  prevItems.reverse.find? (fun p => p.id == id)

/-- The per-record body of the main loop of `detectChanges` (previous
snapshot nonempty). -/
def annotateItem (prevItems : List RoadmapItem) (it : RoadmapItem) : AnnotatedItem :=
  match prevLookup prevItems it.id with
  | none => ⟨it, ChangeType.new, []⟩
  | some prev =>
    let cf := changedFieldsBetween prev it
    if cf.length > 0 then ⟨it, ChangeType.changed, cf⟩
    else ⟨it, ChangeType.unchanged, []⟩

/-- `detectChanges` of `update-data.js` (annotation modelled as a returned
list rather than in-place mutation). -/
def detectChanges (prev : PrevSnapshot) (newItems : List RoadmapItem) :
    List AnnotatedItem :=
  let prevItems := loadPrevItems prev
  if prevItems.length = 0 then
    newItems.map (fun it => ⟨it, ChangeType.unchanged, []⟩)
  else
    newItems.map (annotateItem prevItems)

theorem mem_changedFieldsBetween (p it : RoadmapItem) (f : String) :
    f ∈ changedFieldsBetween p it ↔
      ((f = "title" ∧ strOrEmpty it.title ≠ strOrEmpty p.title) ∨
       (f = "description" ∧ strOrEmpty it.description ≠ strOrEmpty p.description) ∨
       (f = "status" ∧ strOrEmpty it.status ≠ strOrEmpty p.status) ∨
       (f = "publicDisclosureAvailabilityDate" ∧
         strOrEmpty it.publicDisclosureAvailabilityDate ≠
           strOrEmpty p.publicDisclosureAvailabilityDate) ∨
       (f = "tagsContainer" ∧
         stringifyTags it.tagsContainer ≠ stringifyTags p.tagsContainer)) := by
  unfold changedFieldsBetween
  split_ifs with h1 h2 h3 h4 h5 <;> simp_all

/-- C7: when the previous snapshot is missing (first run) or unreadable /
corrupt, every record of the new set is annotated `unchanged` with empty
`_changedFields`; in particular no record is classified `new`. -/
theorem detectChanges_first_run (items : List RoadmapItem) :
    detectChanges PrevSnapshot.missing items =
      items.map (fun it => ⟨it, ChangeType.unchanged, []⟩) ∧
    detectChanges PrevSnapshot.unreadable items =
      items.map (fun it => ⟨it, ChangeType.unchanged, []⟩) ∧
    (∀ a ∈ detectChanges PrevSnapshot.missing items,
      a._changeType = ChangeType.unchanged ∧ a._changedFields = [] ∧
        a._changeType ≠ ChangeType.new) ∧
    (∀ a ∈ detectChanges PrevSnapshot.unreadable items,
      a._changeType = ChangeType.unchanged ∧ a._changedFields = [] ∧
        a._changeType ≠ ChangeType.new) := by
  have e1 : detectChanges PrevSnapshot.missing items =
      items.map (fun it => ⟨it, ChangeType.unchanged, []⟩) := rfl
  have e2 : detectChanges PrevSnapshot.unreadable items =
      items.map (fun it => ⟨it, ChangeType.unchanged, []⟩) := rfl
  refine ⟨e1, e2, ?_, ?_⟩
  · intro a ha
    rw [e1, List.mem_map] at ha
    obtain ⟨it, -, rfl⟩ := ha
    simp
  · intro a ha
    rw [e2, List.mem_map] at ha
    obtain ⟨it, -, rfl⟩ := ha
    simp

/-- C10: a previous snapshot that exists and parses but contains zero
items — a bare empty array, or an object whose `items` member is an empty
array — takes the same first-run path: every record is annotated
`unchanged` with empty `_changedFields`, and none is classified `new`. -/
theorem detectChanges_empty_prev (items : List RoadmapItem) :
    detectChanges (PrevSnapshot.parsedArr []) items =
      items.map (fun it => ⟨it, ChangeType.unchanged, []⟩) ∧
    detectChanges (PrevSnapshot.parsedObjItems (some [])) items =
      items.map (fun it => ⟨it, ChangeType.unchanged, []⟩) ∧
    (∀ a ∈ detectChanges (PrevSnapshot.parsedArr []) items,
      a._changeType = ChangeType.unchanged ∧ a._changedFields = [] ∧
        a._changeType ≠ ChangeType.new) ∧
    (∀ a ∈ detectChanges (PrevSnapshot.parsedObjItems (some [])) items,
      a._changeType = ChangeType.unchanged ∧ a._changedFields = [] ∧
        a._changeType ≠ ChangeType.new) := by
  have e1 : detectChanges (PrevSnapshot.parsedArr []) items =
      items.map (fun it => ⟨it, ChangeType.unchanged, []⟩) := rfl
  have e2 : detectChanges (PrevSnapshot.parsedObjItems (some [])) items =
      items.map (fun it => ⟨it, ChangeType.unchanged, []⟩) := rfl
  refine ⟨e1, e2, ?_, ?_⟩
  · intro a ha
    rw [e1, List.mem_map] at ha
    obtain ⟨it, -, rfl⟩ := ha
    simp
  · intro a ha
    rw [e2, List.mem_map] at ha
    obtain ⟨it, -, rfl⟩ := ha
    simp

theorem annotateItem_changedFields (pItems : List RoadmapItem)
    (it p : RoadmapItem) (hp : prevLookup pItems it.id = some p) :
    (annotateItem pItems it)._changedFields = changedFieldsBetween p it := by
  unfold annotateItem
  rw [hp]
  dsimp only
  by_cases hcf : (changedFieldsBetween p it).length > 0
  · rw [if_pos hcf]
  · rw [if_neg hcf]
    have : changedFieldsBetween p it = [] := by
      cases hcl : changedFieldsBetween p it with
      | nil => rfl
      | cons x xs => rw [hcl] at hcf; simp at hcf
    rw [this]

/-- C6: against a nonempty previous snapshot, `detectChanges` annotates
each record via `annotateItem`; a record whose id matches no previous
record is marked `new` with empty `_changedFields`; for a matched record
the `_changedFields` list contains exactly the differing fields among
`title`, `description`, `status`, `publicDisclosureAvailabilityDate`
(compared as text with missing values read as empty text) and the
serialized `tagsContainer`, and the record is marked `changed` iff at
least one field differs, else `unchanged`. -/
theorem detectChanges_matched (prev : PrevSnapshot) (items : List RoadmapItem)
    (h : loadPrevItems prev ≠ []) :
    detectChanges prev items = items.map (annotateItem (loadPrevItems prev)) ∧
    (∀ (pItems : List RoadmapItem) (it : RoadmapItem),
      ((∀ q ∈ pItems, q.id ≠ it.id) →
        annotateItem pItems it = ⟨it, ChangeType.new, []⟩) ∧
      (∀ p, prevLookup pItems it.id = some p →
        (annotateItem pItems it).item = it ∧
        (∀ f, f ∈ (annotateItem pItems it)._changedFields ↔
          ((f = "title" ∧ strOrEmpty it.title ≠ strOrEmpty p.title) ∨
           (f = "description" ∧
             strOrEmpty it.description ≠ strOrEmpty p.description) ∨
           (f = "status" ∧ strOrEmpty it.status ≠ strOrEmpty p.status) ∨
           (f = "publicDisclosureAvailabilityDate" ∧
             strOrEmpty it.publicDisclosureAvailabilityDate ≠
               strOrEmpty p.publicDisclosureAvailabilityDate) ∨
           (f = "tagsContainer" ∧
             stringifyTags it.tagsContainer ≠ stringifyTags p.tagsContainer))) ∧
        ((annotateItem pItems it)._changeType = ChangeType.changed ↔
          (annotateItem pItems it)._changedFields ≠ []) ∧
        ((annotateItem pItems it)._changeType = ChangeType.unchanged ↔
          (annotateItem pItems it)._changedFields = []))) := by
  constructor
  · unfold detectChanges
    rw [if_neg]
    intro hlen
    exact h (List.length_eq_zero.mp hlen)
  · intro pItems it
    constructor
    · intro hnone
      have hfind : prevLookup pItems it.id = none := by
        unfold prevLookup
        rw [List.find?_eq_none]
        intro x hx
        have hxmem : x ∈ pItems := List.mem_reverse.mp hx
        simp only [beq_iff_eq]
        exact hnone x hxmem
      unfold annotateItem
      rw [hfind]
    · intro p hp
      have hcf := annotateItem_changedFields pItems it p hp
      refine ⟨?_, ?_, ?_, ?_⟩
      · unfold annotateItem
        rw [hp]
        dsimp only
        by_cases hlen : (changedFieldsBetween p it).length > 0
        · rw [if_pos hlen]
        · rw [if_neg hlen]
      · intro f
        rw [hcf]
        exact mem_changedFieldsBetween p it f
      · unfold annotateItem
        rw [hp]
        dsimp only
        cases hcl : changedFieldsBetween p it with
        | nil => simp
        | cons x xs => simp
      · unfold annotateItem
        rw [hp]
        dsimp only
        cases hcl : changedFieldsBetween p it with
        | nil => simp
        | cons x xs => simp

/-- C6, witness: previous snapshot `[{id: 1, title: "Old", ...}]`, new
records `[{id: 1, title: "New", ...}]` (other compared fields equal). -/
theorem detectChanges_matched_witness :
    detectChanges
      (PrevSnapshot.parsedArr
        [{ id := 1, title := some "Old", description := some "desc",
           status := some "In development",
           publicDisclosureAvailabilityDate := none, tagsContainer := none }])
      [{ id := 1, title := some "New", description := some "desc",
         status := some "In development",
         publicDisclosureAvailabilityDate := none, tagsContainer := none }] =
      [{ id := 1, title := some "New", description := some "desc",
         status := some "In development",
         publicDisclosureAvailabilityDate := none, tagsContainer := none }].map
        (annotateItem
          [{ id := 1, title := some "Old", description := some "desc",
             status := some "In development",
             publicDisclosureAvailabilityDate := none, tagsContainer := none }]) :=
  (detectChanges_matched
    (PrevSnapshot.parsedArr
      [{ id := 1, title := some "Old", description := some "desc",
         status := some "In development",
         publicDisclosureAvailabilityDate := none, tagsContainer := none }])
    [{ id := 1, title := some "New", description := some "desc",
       status := some "In development",
       publicDisclosureAvailabilityDate := none, tagsContainer := none }]
    (List.cons_ne_nil _ _)).1

/-! ## Health reporter (`update-data.js`: `generateHealthStatus`)

The prior artifact is read back before writing; a missing or corrupt
prior file yields the empty prior state, modelled by
`previousLSU = none`.  JavaScript truthiness (`x || y`) on optional
string fields is modelled by `jsOrString` / `jsOrNull`. -/

/-- `v || dflt` on an optional string value. -/
def jsOrString (v : Option String) (dflt : String) : String :=
  match v with
  | some s => if s = "" then dflt else s
  | none => dflt

/-- `v || null` on an optional string value. -/
def jsOrNull (v : Option String) : Option String :=
  match v with
  | some s => if s = "" then none else some s
  | none => none

/-- The argument object of `generateHealthStatus({...})`. -/
structure HealthParams where
  status : String
  sourceStatus : String
  itemCount : Option Int
  durationMs : Option Int
  errorMessage : Option String
  timestamp : Option String
deriving DecidableEq, Repr

/-- The artifact written to `health-status.json`. -/
structure HealthArtifact where
  timestamp : String
  status : String
  lastSuccessfulUpdate : Option String
  sourceStatus : String
  backupRetention : Int
  itemCount : Option Int
  durationMs : Option Int
  errorMessage : Option String
deriving DecidableEq, Repr

/-- `generateHealthStatus` of `update-data.js`: `now` is the fallback
`new Date().toISOString()` and `previousLSU` the `lastSuccessfulUpdate`
read from the prior artifact (`none` when the file is missing, corrupt,
or the field is absent/null). -/
def generateHealthStatus (retention : Int) (now : String)
    (previousLSU : Option String) (p : HealthParams) : HealthArtifact :=
  let currentTimestamp := jsOrString p.timestamp now
  let lastSuccessfulUpdate :=
    if p.status = "ok" then some currentTimestamp else jsOrNull previousLSU
  { timestamp := currentTimestamp
    status := p.status
    lastSuccessfulUpdate := lastSuccessfulUpdate
    sourceStatus := p.sourceStatus
    backupRetention := retention
    itemCount := p.itemCount
    durationMs := p.durationMs
    errorMessage := jsOrNull p.errorMessage }

/-- C4: `lastSuccessfulUpdate` is assigned the current run timestamp
exactly when the run status is `"ok"`; on a non-ok run it is the value
carried over from the prior artifact (`none` when no prior value ever
existed).  Since the pipeline only ever stores a nonempty ISO timestamp
or null, the prior value is never the empty string, and a value once set
is never reset to `null` by a failed run. -/
theorem health_lastSuccessfulUpdate (retention : Int) (now : String)
    (previousLSU : Option String) (p : HealthParams)
    (hprev : previousLSU ≠ some "") :
    (generateHealthStatus retention now previousLSU p).lastSuccessfulUpdate =
      (if p.status = "ok" then some (jsOrString p.timestamp now) else previousLSU) ∧
    (p.status ≠ "ok" → ∀ t, previousLSU = some t →
      (generateHealthStatus retention now previousLSU p).lastSuccessfulUpdate = some t) := by
  have hcarry : jsOrNull previousLSU = previousLSU := by
    rcases previousLSU with _ | s
    · rfl
    · unfold jsOrNull
      dsimp only
      rw [if_neg]
      intro hs
      exact hprev (by rw [hs])
  constructor
  · unfold generateHealthStatus
    dsimp only
    by_cases hok : p.status = "ok"
    · rw [if_pos hok, if_pos hok]
    · rw [if_neg hok, if_neg hok, hcarry]
  · intro hok t ht
    unfold generateHealthStatus
    dsimp only
    rw [if_neg hok, hcarry, ht]

/-- C4, witness: a degraded run with prior value `"2026-01-01T00:00:00Z"`
carries that value forward unchanged. -/
theorem health_lastSuccessfulUpdate_witness :
    (generateHealthStatus 10 "2026-01-02T00:00:00Z"
        (some "2026-01-01T00:00:00Z")
        { status := "degraded", sourceStatus := "failed", itemCount := none,
          durationMs := some 1200, errorMessage := some "Request timeout",
          timestamp := some "2026-01-02T00:00:00Z" }).lastSuccessfulUpdate =
      (if ("degraded" : String) = "ok"
        then some (jsOrString (some "2026-01-02T00:00:00Z") "2026-01-02T00:00:00Z")
        else some "2026-01-01T00:00:00Z") ∧
    (("degraded" : String) ≠ "ok" → ∀ t,
      (some "2026-01-01T00:00:00Z" : Option String) = some t →
      (generateHealthStatus 10 "2026-01-02T00:00:00Z"
          (some "2026-01-01T00:00:00Z")
          { status := "degraded", sourceStatus := "failed", itemCount := none,
            durationMs := some 1200, errorMessage := some "Request timeout",
            timestamp := some "2026-01-02T00:00:00Z" }).lastSuccessfulUpdate = some t) :=
  health_lastSuccessfulUpdate 10 "2026-01-02T00:00:00Z"
    (some "2026-01-01T00:00:00Z")
    { status := "degraded", sourceStatus := "failed", itemCount := none,
      durationMs := some 1200, errorMessage := some "Request timeout",
      timestamp := some "2026-01-02T00:00:00Z" }
    (by simp)

/-! ## Pipeline controller (`update-data.js`: `run`)

The controller's observable outcome is its exit code and the sequence of
`generateHealthStatus` argument objects it produces.  The fallible steps
are the fetch (with retry already applied), the snapshot save, and the
two health writes; `detectChanges`/`processData`/`generateReport` cannot
fail the run (`generateReport` catches its own errors).  Time values are
abstracted into one duration and one timestamp parameter. -/

structure RunResult where
  exitCode : Nat
  healthWrites : List HealthParams
deriving DecidableEq, Repr

/-- The health parameters of the success path of `run`. -/
def mkOkParams (itemCount : Int) (durationMs : Int) (ts : String) : HealthParams :=
  { status := "ok", sourceStatus := "success", itemCount := some itemCount,
    durationMs := some durationMs, errorMessage := none, timestamp := some ts }

/-- The health parameters of the catch path of `run`. -/
def mkDegradedParams (durationMs : Int) (errMsg : String) (ts : String) : HealthParams :=
  { status := "degraded", sourceStatus := "failed", itemCount := none,
    durationMs := some durationMs, errorMessage := some errMsg, timestamp := some ts }

/-- `run` of `update-data.js`: try fetch / process / save / report, write
the ok health artifact and exit 0; on any thrown error, attempt the
degraded health artifact (its own failure only logged) and exit 1. -/
def run (fetchResult : Except String (List RoadmapItem))
    (saveResult : Except String Unit)
    (okHealthWrite : Except String Unit)
    (degradedHealthWrite : Except String Unit)
    (durationMs : Int) (ts : String) : RunResult :=
  match fetchResult with
  | Except.error e =>
    match degradedHealthWrite with
    | _ => { exitCode := 1, healthWrites := [mkDegradedParams durationMs e ts] }
  | Except.ok items =>
    match saveResult with
    | Except.error e =>
      match degradedHealthWrite with
      | _ => { exitCode := 1, healthWrites := [mkDegradedParams durationMs e ts] }
    | Except.ok _ =>
      match okHealthWrite with
      | Except.ok _ =>
        { exitCode := 0, healthWrites := [mkOkParams (items.length : Int) durationMs ts] }
      | Except.error e =>
        match degradedHealthWrite with
        | _ =>
          { exitCode := 1,
            healthWrites := [mkOkParams (items.length : Int) durationMs ts,
                             mkDegradedParams durationMs e ts] }

/-- C5: the run writes a health artifact on both outcomes — on success an
`"ok"`/`"success"` artifact with the item count, exiting 0; on any
failure (fetch exhausted, validation failure propagated through the
fetch, or write failure) a `"degraded"`/`"failed"` artifact carrying the
error message, exiting 1 — and the exit code 1 stands even if writing the
degraded artifact itself fails. -/
theorem run_exit_and_health (fetchResult : Except String (List RoadmapItem))
    (saveResult okHealthWrite degradedHealthWrite : Except String Unit)
    (durationMs : Int) (ts : String) :
    (∀ items, fetchResult = Except.ok items → saveResult = Except.ok () →
      okHealthWrite = Except.ok () →
      run fetchResult saveResult okHealthWrite degradedHealthWrite durationMs ts =
        { exitCode := 0,
          healthWrites := [mkOkParams (items.length : Int) durationMs ts] }) ∧
    (∀ e, fetchResult = Except.error e →
      run fetchResult saveResult okHealthWrite degradedHealthWrite durationMs ts =
        { exitCode := 1, healthWrites := [mkDegradedParams durationMs e ts] }) ∧
    (∀ items e, fetchResult = Except.ok items → saveResult = Except.error e →
      run fetchResult saveResult okHealthWrite degradedHealthWrite durationMs ts =
        { exitCode := 1, healthWrites := [mkDegradedParams durationMs e ts] }) ∧
    (∀ items e, fetchResult = Except.ok items → saveResult = Except.ok () →
      okHealthWrite = Except.error e →
      run fetchResult saveResult okHealthWrite degradedHealthWrite durationMs ts =
        { exitCode := 1,
          healthWrites := [mkOkParams (items.length : Int) durationMs ts,
                           mkDegradedParams durationMs e ts] }) ∧
    (∀ degradedHealthWrite',
      run fetchResult saveResult okHealthWrite degradedHealthWrite' durationMs ts =
        run fetchResult saveResult okHealthWrite degradedHealthWrite durationMs ts) ∧
    ((run fetchResult saveResult okHealthWrite degradedHealthWrite durationMs ts).exitCode = 0
      ∨ (run fetchResult saveResult okHealthWrite degradedHealthWrite durationMs ts).exitCode = 1) ∧
    (∀ n d t, (mkOkParams n d t).status = "ok" ∧
      (mkOkParams n d t).sourceStatus = "success" ∧
      (mkOkParams n d t).itemCount = some n) ∧
    (∀ d m t, (mkDegradedParams d m t).status = "degraded" ∧
      (mkDegradedParams d m t).sourceStatus = "failed" ∧
      (mkDegradedParams d m t).errorMessage = some m) := by
  refine ⟨?_, ?_, ?_, ?_, ?_, ?_, ?_, ?_⟩
  · intro items hf hs ho
    subst hf; subst hs; subst ho
    rfl
  · intro e hf
    subst hf
    cases degradedHealthWrite <;> rfl
  · intro items e hf hs
    subst hf; subst hs
    cases degradedHealthWrite <;> rfl
  · intro items e hf hs ho
    subst hf; subst hs; subst ho
    cases degradedHealthWrite <;> rfl
  · intro dw'
    rcases fetchResult with e | items
    · cases dw' <;> cases degradedHealthWrite <;> rfl
    · rcases saveResult with e | u
      · cases dw' <;> cases degradedHealthWrite <;> rfl
      · rcases okHealthWrite with e | u'
        · cases dw' <;> cases degradedHealthWrite <;> rfl
        · rfl
  · rcases fetchResult with e | items
    · cases degradedHealthWrite <;> simp [run]
    · rcases saveResult with e | u
      · cases degradedHealthWrite <;> simp [run]
      · rcases okHealthWrite with e | u'
        · cases degradedHealthWrite <;> simp [run]
        · simp [run]
  · intro n d t
    exact ⟨rfl, rfl, rfl⟩
  · intro d m t
    exact ⟨rfl, rfl, rfl⟩

/-- C5, witness: a run whose fetch fails terminally with
`"Request timeout"` writes one degraded/failed artifact carrying the
message and exits 1, with the degraded write itself failing. -/
theorem run_exit_and_health_witness :
    run (Except.error "Request timeout") (Except.ok ()) (Except.ok ())
        (Except.error "EACCES") 7 "2026-01-02T00:00:00Z" =
      { exitCode := 1,
        healthWrites := [mkDegradedParams 7 "Request timeout" "2026-01-02T00:00:00Z"] } :=
  (run_exit_and_health (Except.error "Request timeout") (Except.ok ()) (Except.ok ())
    (Except.error "EACCES") 7 "2026-01-02T00:00:00Z").2.1 "Request timeout" rfl

/-! ## Independent health checker (`scripts/health-check.js`)

`validateHealth(health, now, maxAgeHours)` pushes error and warning
strings in a fixed order; the embedding records them as tagged values
(the formatted message text, including the `toFixed(2)` rendering of the
age, is abstracted into the constructor's numeric arguments).  The host
`Date.parse` is the parameter `dateParse` (milliseconds since epoch for a
parseable timestamp, `none` for `NaN`); `toIso` normalizes through the
same parse, and re-parsing the normalized ISO string returns the same
millisecond value, so the age computation uses the parsed value
directly. -/

inductive CheckError
  | badStatus (s : String)
  | badSourceStatus (s : String)
  | itemCountMissing
  | itemCountNonPositive (n : ℚ)
  | lastSuccessMissingOrInvalid
  | stale (ageHours maxAgeHours : ℚ)
  | loadFailure
deriving DecidableEq, Repr

inductive CheckWarning
  | timestampMissingOrInvalid
  | reportTimestampInvalid
  | reportUnparseable
  | reportMissing
deriving DecidableEq, Repr

structure HealthSource where
  status : Option String
deriving DecidableEq, Repr

/-- The parsed content of `health-status.json` as the checker reads it:
`itemCount` is `metrics.itemCount` when `metrics` is present and the
member is a number (JavaScript numbers, hence `ℚ`), else `none`. -/
structure HealthFile where
  status : Option String
  source : Option HealthSource
  itemCount : Option ℚ
  timestamp : Option String
  lastSuccessfulUpdate : Option String
deriving DecidableEq, Repr

/-- `if (status !== 'ok') errors.push(...)`. -/
def statusErrors (status : String) : List CheckError :=
  if status ≠ "ok" then [CheckError.badStatus status] else []

/-- `if (sourceStatus !== 'success') errors.push(...)`. -/
def sourceErrors (sourceStatus : String) : List CheckError :=
  if sourceStatus ≠ "success" then [CheckError.badSourceStatus sourceStatus] else []

/-- `itemCount == null` / `itemCount <= 0` checks. -/
def itemCountErrors : Option ℚ → List CheckError
  | none => [CheckError.itemCountMissing]
  | some n => if n ≤ 0 then [CheckError.itemCountNonPositive n] else []

/-- The `lastSuccessfulUpdate` checks: missing/unparseable is an error;
otherwise `ageHours = (now - ms) / (60*60*1000)` and an error is pushed
iff `ageHours > maxAgeHours`. -/
def lastSuccessErrors (now : Int) (maxAgeHours : ℚ) : Option Int → List CheckError
  | none => [CheckError.lastSuccessMissingOrInvalid]
  | some ms =>
    if ((now - ms : Int) : ℚ) / (60 * 60 * 1000) > maxAgeHours then
      [CheckError.stale (((now - ms : Int) : ℚ) / (60 * 60 * 1000)) maxAgeHours]
    else []

/-- `validateHealth` of `health-check.js`: errors and warnings in push
order. -/
def validateHealth (dateParse : String → Option Int) (hf : HealthFile)
    (now : Int) (maxAgeHours : ℚ) : List CheckError × List CheckWarning :=
  let status := jsOrString hf.status "unknown"
  let sourceStatus := match hf.source with
    | some src => jsOrString src.status "unknown"
    | none => "unknown"
  let warnings := match hf.timestamp.bind dateParse with
    | none => [CheckWarning.timestampMissingOrInvalid]
    | some _ => []
  (statusErrors status ++ sourceErrors sourceStatus ++
      itemCountErrors hf.itemCount ++
      lastSuccessErrors now maxAgeHours (hf.lastSuccessfulUpdate.bind dateParse),
    warnings)

structure CheckOutcome where
  ok : Bool
  errors : List CheckError
  warnings : List CheckWarning
deriving DecidableEq, Repr

/-- The result assembly of `main()`: a failed load of the health file
pushes one error; the companion report file contributes warnings only;
`result.ok = result.errors.length === 0`. -/
def runCheck (dateParse : String → Option Int) (healthLoad : Option HealthFile)
    (now : Int) (maxAgeHours : ℚ) (reportWarnings : List CheckWarning) : CheckOutcome :=
  let base : List CheckError × List CheckWarning :=
    match healthLoad with
    | none => ([CheckError.loadFailure], [])
    | some hf => validateHealth dateParse hf now maxAgeHours
  { ok := (base.1 ++ []).isEmpty
    errors := base.1
    warnings := base.2 ++ reportWarnings }

theorem stale_not_mem_statusErrors (a b : ℚ) (s : String) :
    CheckError.stale a b ∉ statusErrors s := by
  unfold statusErrors
  split <;> simp

theorem stale_not_mem_sourceErrors (a b : ℚ) (s : String) :
    CheckError.stale a b ∉ sourceErrors s := by
  unfold sourceErrors
  split <;> simp

theorem stale_not_mem_itemCountErrors (a b : ℚ) (o : Option ℚ) :
    CheckError.stale a b ∉ itemCountErrors o := by
  cases o with
  | none => simp [itemCountErrors]
  | some n =>
    unfold itemCountErrors
    split <;> simp

theorem stale_mem_lastSuccessErrors (now : Int) (mh : ℚ) (o : Option Int) :
    (∃ a b, CheckError.stale a b ∈ lastSuccessErrors now mh o) ↔
      (∃ ms, o = some ms ∧ ((now - ms : Int) : ℚ) / (60 * 60 * 1000) > mh) := by
  cases o with
  | none => simp [lastSuccessErrors]
  | some ms =>
    unfold lastSuccessErrors
    dsimp only
    by_cases hgt : ((now - ms : Int) : ℚ) / (60 * 60 * 1000) > mh
    · rw [if_pos hgt]
      constructor
      · intro _
        exact ⟨ms, rfl, hgt⟩
      · intro _
        exact ⟨_, _, List.mem_singleton_self _⟩
    · rw [if_neg hgt]
      constructor
      · rintro ⟨a, b, hmem⟩
        exact absurd hmem (List.not_mem_nil _)
      · rintro ⟨ms', hms', hgt'⟩
        injection hms' with h
        subst h
        exact absurd hgt' hgt

/-- A concrete fragment of the host `Date.parse` for the witness
instances: the single timestamp string `"1970-01-01T00:00:00Z"` parses to
0 ms, everything else is unparseable. -/
def dateParseEpoch : String → Option Int :=
  fun s => if s = "1970-01-01T00:00:00Z" then some 0 else none

/-- A concrete health file whose fields are all healthy and whose
`lastSuccessfulUpdate` parses to 0 ms under `dateParseEpoch`. -/
def hfEpoch : HealthFile :=
  { status := some "ok", source := some { status := some "success" },
    itemCount := some 42, timestamp := some "1970-01-01T00:00:00Z",
    lastSuccessfulUpdate := some "1970-01-01T00:00:00Z" }

/-- C8: the checker reports a staleness error iff `lastSuccessfulUpdate`
parses and its age at `now` strictly exceeds `maxAgeHours`; an
unparseable or missing value yields the distinct missing/invalid error
and no staleness error; and the overall `ok` flag is true iff the error
list is empty. -/
theorem health_check_staleness (dateParse : String → Option Int)
    (hf : HealthFile) (now : Int) (maxAgeHours : ℚ) :
    ((∃ a b, CheckError.stale a b ∈ (validateHealth dateParse hf now maxAgeHours).1) ↔
      (∃ ms, hf.lastSuccessfulUpdate.bind dateParse = some ms ∧
        ((now - ms : Int) : ℚ) / (60 * 60 * 1000) > maxAgeHours)) ∧
    (hf.lastSuccessfulUpdate.bind dateParse = none →
      CheckError.lastSuccessMissingOrInvalid ∈
          (validateHealth dateParse hf now maxAgeHours).1 ∧
      ∀ a b, CheckError.stale a b ∉ (validateHealth dateParse hf now maxAgeHours).1) ∧
    (∀ healthLoad reportWarnings,
      ((runCheck dateParse healthLoad now maxAgeHours reportWarnings).ok = true ↔
        (runCheck dateParse healthLoad now maxAgeHours reportWarnings).errors = [])) := by
  refine ⟨?_, ?_, ?_⟩
  · unfold validateHealth
    dsimp only
    constructor
    · rintro ⟨a, b, hmem⟩
      rw [List.mem_append] at hmem
      rcases hmem with hmem | hmem
      · rw [List.mem_append] at hmem
        rcases hmem with hmem | hmem
        · rw [List.mem_append] at hmem
          rcases hmem with hmem | hmem
          · exact absurd hmem (stale_not_mem_statusErrors a b _)
          · exact absurd hmem (stale_not_mem_sourceErrors a b _)
        · exact absurd hmem (stale_not_mem_itemCountErrors a b _)
      · exact (stale_mem_lastSuccessErrors now maxAgeHours _).mp ⟨a, b, hmem⟩
    · intro hex
      obtain ⟨a, b, hmem⟩ := (stale_mem_lastSuccessErrors now maxAgeHours _).mpr hex
      exact ⟨a, b, by
        rw [List.mem_append]
        right
        exact hmem⟩
  · intro hnone
    constructor
    · unfold validateHealth
      dsimp only
      rw [hnone]
      rw [List.mem_append]
      right
      simp [lastSuccessErrors]
    · intro a b hmem
      unfold validateHealth at hmem
      dsimp only at hmem
      rw [hnone] at hmem
      rw [List.mem_append] at hmem
      rcases hmem with hmem | hmem
      · rw [List.mem_append] at hmem
        rcases hmem with hmem | hmem
        · rw [List.mem_append] at hmem
          rcases hmem with hmem | hmem
          · exact stale_not_mem_statusErrors a b _ hmem
          · exact stale_not_mem_sourceErrors a b _ hmem
        · exact stale_not_mem_itemCountErrors a b _ hmem
      · simp [lastSuccessErrors] at hmem
  · intro healthLoad reportWarnings
    cases healthLoad <;> simp [runCheck, List.isEmpty_iff]

/-- C8, witness: with `lastSuccessfulUpdate` parsing to `now − 9` hours,
the checker reports a staleness error at `maxAgeHours = 8` and no
staleness error at `maxAgeHours = 10`. -/
theorem health_check_staleness_witness :
    (∃ a b, CheckError.stale a b ∈
      (validateHealth dateParseEpoch hfEpoch (9 * (60 * 60 * 1000)) 8).1) ∧
    (∀ a b, CheckError.stale a b ∉
      (validateHealth dateParseEpoch hfEpoch (9 * (60 * 60 * 1000)) 10).1) := by
  constructor
  · exact (health_check_staleness dateParseEpoch hfEpoch (9 * (60 * 60 * 1000)) 8).1.mpr
      ⟨0, rfl, by norm_num⟩
  · intro a b hmem
    have h := (health_check_staleness dateParseEpoch hfEpoch
      (9 * (60 * 60 * 1000)) 10).1.mp ⟨a, b, hmem⟩
    obtain ⟨ms, hms, hgt⟩ := h
    have h2 : hfEpoch.lastSuccessfulUpdate.bind dateParseEpoch = some 0 := rfl
    rw [h2] at hms
    injection hms with h3
    subst h3
    norm_num at hgt

/-! ## Snapshot writer: backup pruning (`update-data.js`: `saveData`,
`cleanupBackups`)

Directory state is a list of file names with modification times.  The
comparator `(a, b) => b.time - a.time` sorts descending by mtime;
`Array.prototype.sort` is stable, as is `List.mergeSort`. -/

structure BackupFile where
  name : String
  mtime : Int
deriving DecidableEq, Repr

/-- The backup-file name filter of `cleanupBackups`. -/
def isBackupCandidate (name : String) : Bool :=
  name.startsWith "roadmap-data-" && name.endsWith ".json" &&
    name != "roadmap-data-compact.json"

/-- Descending-by-mtime comparator as a Bool relation. -/
def newerEq (a b : BackupFile) : Bool :=
  decide (b.mtime ≤ a.mtime)

/-- The matched backups sorted by modification time descending. -/
def sortedBackups (files : List BackupFile) : List BackupFile :=
  (files.filter (fun f => isBackupCandidate f.name)).mergeSort newerEq

/-- `cleanupBackups` of `update-data.js`: the files it deletes — all
matched backups beyond the most recent `retention` — or none when the
count does not exceed the retention. -/
def cleanupBackups (files : List BackupFile) (retention : Nat) : List BackupFile :=
  let backupFiles := sortedBackups files
  if backupFiles.length > retention then backupFiles.drop retention else []

/-- `BACKUP_RETENTION_COUNT` handling in the constructor:
`Math.max(1, Math.min(100, parseInt(env, 10) || 10))`. -/
def clampRetention (envValue : Option Int) : Int :=
  max 1 (min 100 (match envValue with
    | some n => if n = 0 then 10 else n
    | none => 10))

/-- `saveData` of `update-data.js`, by outcome: the canonical, backup and
compact writes propagate their failure; the trailing `cleanupBackups()`
call catches its own errors, so its outcome never fails the save. -/
def saveData (writeMain writeBackup writeCompact : Except String Unit)
    (cleanup : Except String Unit) : Except String Unit :=
  match writeMain with
  | Except.error e => Except.error e
  | Except.ok _ =>
    match writeBackup with
    | Except.error e => Except.error e
    | Except.ok _ =>
      match writeCompact with
      | Except.error e => Except.error e
      | Except.ok _ =>
        match cleanup with
        | _ => Except.ok ()

theorem newerEq_trans (a b c : BackupFile) :
    newerEq a b = true → newerEq b c = true → newerEq a c = true := by
  unfold newerEq
  intro h1 h2
  rw [decide_eq_true_eq] at h1 h2 ⊢
  omega

theorem newerEq_total (a b : BackupFile) : (newerEq a b || newerEq b a) = true := by
  unfold newerEq
  rcases le_total b.mtime a.mtime with h | h <;> simp [h]

/-- C9: pruning deletes exactly the matched backups beyond the
`retention` most recent by modification time: the deleted list is the
descending-sorted suffix past position `retention`, the sorted list is a
permutation of the matched backups, the surviving prefix has length at
most `retention`, every survivor is at least as recent as every deleted
file, the configured retention is clamped to `[1, 100]` (default 10),
and a pruning failure never fails the enclosing save. -/
theorem backup_pruning (files : List BackupFile) (retention : Nat) :
    cleanupBackups files retention = (sortedBackups files).drop retention ∧
    (sortedBackups files).Perm (files.filter (fun f => isBackupCandidate f.name)) ∧
    ((sortedBackups files).take retention).length ≤ retention ∧
    (∀ x ∈ (sortedBackups files).take retention,
      ∀ y ∈ (sortedBackups files).drop retention, y.mtime ≤ x.mtime) ∧
    (∀ v, 1 ≤ clampRetention v ∧ clampRetention v ≤ 100) ∧
    clampRetention none = 10 ∧
    (∀ w1 w2 w3 e, saveData w1 w2 w3 (Except.error e) = saveData w1 w2 w3 (Except.ok ())) := by
  refine ⟨?_, ?_, ?_, ?_, ?_, rfl, ?_⟩
  · unfold cleanupBackups
    dsimp only
    by_cases hlen : (sortedBackups files).length > retention
    · rw [if_pos hlen]
    · rw [if_neg hlen]
      rw [List.drop_eq_nil_of_le]
      omega
  · exact List.mergeSort_perm _ newerEq
  · rw [List.length_take]
    omega
  · have hsorted : List.Pairwise (fun a b => newerEq a b = true) (sortedBackups files) :=
      List.sorted_mergeSort newerEq_trans newerEq_total _
    rw [← List.take_append_drop retention (sortedBackups files)] at hsorted
    rw [List.pairwise_append] at hsorted
    intro x hx y hy
    have h := hsorted.2.2 x hx y hy
    unfold newerEq at h
    rw [decide_eq_true_eq] at h
    exact h
  · intro v
    unfold clampRetention
    rcases v with _ | n
    · constructor <;> simp
    · dsimp only
      split <;> constructor <;> simp [le_max_iff, max_le_iff, min_le_iff, le_min_iff]
  · intro w1 w2 w3 e
    rcases w1 with e1 | u1
    · rfl
    · rcases w2 with e2 | u2
      · rfl
      · rcases w3 with e3 | u3 <;> rfl

/-- C9, witness: three matched backups with retention 2 — the oldest one
is deleted, the two most recent survive. -/
theorem backup_pruning_witness :
    cleanupBackups
        [{ name := "roadmap-data-2026-01-01T00-00-00-000Z.json", mtime := 100 },
         { name := "roadmap-data-2026-01-02T00-00-00-000Z.json", mtime := 200 },
         { name := "roadmap-data-2026-01-03T00-00-00-000Z.json", mtime := 300 }] 2 =
      (sortedBackups
        [{ name := "roadmap-data-2026-01-01T00-00-00-000Z.json", mtime := 100 },
         { name := "roadmap-data-2026-01-02T00-00-00-000Z.json", mtime := 200 },
         { name := "roadmap-data-2026-01-03T00-00-00-000Z.json", mtime := 300 }]).drop 2 :=
  (backup_pruning
    [{ name := "roadmap-data-2026-01-01T00-00-00-000Z.json", mtime := 100 },
     { name := "roadmap-data-2026-01-02T00-00-00-000Z.json", mtime := 200 },
     { name := "roadmap-data-2026-01-03T00-00-00-000Z.json", mtime := 300 }] 2).1

end M365
